import Mathlib

/-!
Verification of the finance-stress-simulator core
(`backend/app/domain/{simulator,scenarios,levers}.py`).

Monetary amounts are modelled as rationals (the Python code uses exact
arithmetic formulas over floats; all claims here are about the algorithmic
structure, which we settle over `ℚ`).  Python dicts of scenario parameters
are modelled as finite partial maps `String → Option ℚ`; `dict.get(k, d)`
becomes `pget`.  Fallible operations (Python exceptions) are modelled with
`Except String`.
-/

/-- Python `dict` of scenario parameters: a partial map from key to value. -/
def Params : Type := String → Option ℚ

/-- Python `params.get(key, default)`. -/
def pget (p : Params) (key : String) (dflt : ℚ) : ℚ :=
  (p key).getD dflt

/-- `SimulationInput` dataclass from `simulator.py`. -/
structure SimulationInput where
  monthly_income_takehome : ℚ
  emergency_fund_balance : ℚ
  essential_total : ℚ
  discretionary_total : ℚ
  horizon_months : ℕ
deriving Repr

/-- `SimulationOutput` dataclass from `simulator.py`. -/
structure SimulationOutput where
  runway_months : ℚ
  breach_month : Option ℕ
  balance_series : List ℚ
  min_balance : ℚ
  ending_balance : ℚ
deriving Repr

namespace FinancialSimulator

/-- `FinancialSimulator._calculate_income`.  Months are 1-based. -/
def calculate_income (inp : SimulationInput) (month : ℕ)
    (scenario_type : String) (params : Params) : ℚ :=
  if scenario_type ∈ ["job_loss", "income_cut_20", "income_cut_40"] then
    let start_month := pget params "start_month" 1
    let multiplier := pget params "income_multiplier" 1
    if (month : ℚ) ≥ start_month then
      inp.monthly_income_takehome * multiplier
    else
      inp.monthly_income_takehome
  else
    inp.monthly_income_takehome

/-- `FinancialSimulator._calculate_expenses`.  The two scenario branches are
sequential `if`s in the source, the second operating on the value produced
by the first. -/
def calculate_expenses (inp : SimulationInput) (month : ℕ)
    (scenario_type : String) (params : Params) : ℚ :=
  let essential := inp.essential_total
  let discretionary := inp.discretionary_total
  let essential :=
    if scenario_type = "rent_increase" ∧
        (month : ℚ) ≥ pget params "start_month" 1 then
      let housing_portion := essential * (35 / 100)
      let housing_increase := housing_portion * pget params "increase_percent" (15 / 100)
      essential + housing_increase
    else essential
  let essential :=
    if scenario_type = "inflation_spike" then
      essential * (1 + pget params "monthly_increase_rate" (5 / 100 / 12)) ^ month
    else essential
  essential + discretionary

/-- `FinancialSimulator._calculate_one_time_shock`. -/
def calculate_one_time_shock (inp : SimulationInput) (month : ℕ)
    (scenario_type : String) (params : Params) : ℚ :=
  if scenario_type = "one_time_emergency" ∧
      (month : ℚ) = pget params "month" 1 then
    pget params "amount" 1500
  else 0

/-- One iteration of the simulation loop body:
`balance + income - expenses - shock` for the given (1-based) month. -/
def step (inp : SimulationInput) (scenario_type : String) (params : Params)
    (month : ℕ) (balance : ℚ) : ℚ :=
  balance + calculate_income inp month scenario_type params
    - calculate_expenses inp month scenario_type params
    - calculate_one_time_shock inp month scenario_type params

/-- The `for month in range(1, horizon+1)` loop of `simulate`, carrying the
running balance, the accumulated series and the first breach month.
`month` is the current month, `fuel` the number of months still to run. -/
def simulateLoop (inp : SimulationInput) (scenario_type : String) (params : Params) :
    ℕ → ℕ → ℚ → List ℚ → Option ℕ → List ℚ × Option ℕ
  | _, 0, _, series, breach => (series, breach)
  | month, fuel + 1, balance, series, breach =>
      let balance' := step inp scenario_type params month balance
      let breach' := if breach = none ∧ balance' < 0 then some month else breach
      simulateLoop inp scenario_type params (month + 1) fuel balance'
        (series ++ [balance']) breach'

/-- Python `min(balance_series)` (the series is never empty in `simulate`;
the `[]` case is unreachable there). -/
def pyMin : List ℚ → ℚ
  | [] => 0
  | x :: xs => xs.foldl min x

/-- The scan of `_calculate_runway` over consecutive pairs, carrying the
current index `i`.  Returns `some runway` at the first crossing found,
`none` if the loop falls through. -/
def runwayScan : ℕ → List ℚ → Option ℚ
  | _, [] => none
  | _, [_] => none
  | i, b0 :: b1 :: rest =>
      if 0 ≤ b0 ∧ b1 < 0 then
        let decline := b0 - b1
        if 0 < decline then
          some ((i : ℚ) + b0 / decline)
        else
          runwayScan (i + 1) (b1 :: rest)
      else
        runwayScan (i + 1) (b1 :: rest)

/-- `FinancialSimulator._calculate_runway` (`self.horizon` is passed
explicitly; `balance_series[-1]` is modelled by `getLast?.getD 0`, the
series being nonempty wherever this is called). -/
def calculate_runway (horizon : ℕ) (balance_series : List ℚ) : ℚ :=
  match runwayScan 0 balance_series with
  | some r => r
  | none =>
      if 0 ≤ balance_series.getLast?.getD 0 then (horizon : ℚ) else 0

/-- `FinancialSimulator.simulate`. -/
def simulate (inp : SimulationInput) (scenario_type : String) (params : Params) :
    SimulationOutput :=
  let r := simulateLoop inp scenario_type params 1 inp.horizon_months
    inp.emergency_fund_balance [inp.emergency_fund_balance] none
  { runway_months := calculate_runway inp.horizon_months r.1
    breach_month := r.2
    balance_series := r.1
    min_balance := pyMin r.1
    ending_balance := r.1.getLast?.getD 0 }

end FinancialSimulator

/-- `calculate_risk_level` from `simulator.py`; `monthly_expenses` is unused
by the current rule. -/
def calculate_risk_level (runway_months : ℚ) (monthly_expenses : ℚ) : String :=
  if runway_months < 2 then "high"
  else if runway_months < 6 then "medium"
  else "low"

/-! ## Scenario registry (`scenarios.py`) -/

/-- `ScenarioDefinition` from `scenarios.py`; `type` holds the enum's string
value. -/
structure ScenarioDefinition where
  type : String
  name : String
  description : String
  default_params : Params

/-- `DEFAULT_SCENARIOS` from `scenarios.py`. -/
def DEFAULT_SCENARIOS : List ScenarioDefinition :=
  [ { type := "job_loss"
      name := "Job Loss"
      description := "Complete loss of income starting immediately"
      default_params := fun k =>
        if k = "start_month" then some 1
        else if k = "income_multiplier" then some 0
        else none }
  , { type := "income_cut_20"
      name := "20% Income Reduction"
      description := "Income reduced by 20% (pay cut, reduced hours)"
      default_params := fun k =>
        if k = "start_month" then some 1
        else if k = "income_multiplier" then some (8 / 10)
        else none }
  , { type := "income_cut_40"
      name := "40% Income Reduction"
      description := "Income reduced by 40% (major pay cut)"
      default_params := fun k =>
        if k = "start_month" then some 1
        else if k = "income_multiplier" then some (6 / 10)
        else none }
  , { type := "rent_increase"
      name := "Rent/Housing Increase"
      description := "Housing costs increase by 15%"
      default_params := fun k =>
        if k = "start_month" then some 1
        else if k = "increase_percent" then some (15 / 100)
        else none }
  , { type := "one_time_emergency"
      name := "Emergency Expense"
      description := "Unexpected $1,500 expense (medical, car repair, etc.)"
      default_params := fun k =>
        if k = "month" then some 1
        else if k = "amount" then some 1500
        else none }
  , { type := "inflation_spike"
      name := "Inflation Spike"
      description := "Essential expenses increase by 5% per year"
      default_params := fun k =>
        if k = "monthly_increase_rate" then some (5 / 100 / 12)
        else none } ]

/-- Python `default.copy()` followed by `params.update(custom)`: override
keys win, all other keys of either map pass through. -/
def dictMerge (dflt custom : Params) : Params :=
  fun k => (custom k).orElse (fun _ => dflt k)

/-- `get_scenario_params` from `scenarios.py`.  The `ValueError` raised for
an unknown kind is modelled as `Except.error`. -/
def get_scenario_params (scenario_type : String)
    (custom_params : Option Params) : Except String Params :=
  match DEFAULT_SCENARIOS.find? (fun s => s.type = scenario_type) with
  | none => .error ("Unknown scenario type: " ++ scenario_type)
  | some default_scenario =>
      match custom_params with
      | none => .ok default_scenario.default_params
      | some custom => .ok (dictMerge default_scenario.default_params custom)

/-! ## Lever engine (`levers.py`) -/

/-- `Lever` dataclass from `levers.py`.  The `label` and `description`
fields are display-only formatted strings; no claim inspects them and the
numeric string formatting is not modelled, so they are elided here. -/
structure Lever where
  new_runway_months : ℚ
  delta_months : ℚ
  impact_category : String
deriving Repr, DecidableEq

/-- Python `round(x, 2)` (to two decimals; the model rounds half up, which
agrees with Python everywhere away from exact ties). -/
def roundTo2 (x : ℚ) : ℚ :=
  (round (x * 100) : ℤ) / 100

/-- Python `a / b`, raising `ZeroDivisionError` on a zero divisor. -/
def pyDiv (a b : ℚ) : Except String ℚ :=
  if b = 0 then .error "ZeroDivisionError" else .ok (a / b)

/-- Lever 1 of `calculate_levers`: cut discretionary spending by 30%. -/
def candidate_discretionary_30 (base_input : SimulationInput)
    (scenario_type : String) (scenario_params : Params) (base_runway : ℚ) :
    Option Lever :=
  if 0 < base_input.discretionary_total then
    let modified_input :=
      { base_input with discretionary_total := base_input.discretionary_total * (7 / 10) }
    let result := FinancialSimulator.simulate modified_input scenario_type scenario_params
    let delta := result.runway_months - base_runway
    if 1 / 10 < delta then
      some { new_runway_months := roundTo2 result.runway_months
             delta_months := roundTo2 delta
             impact_category := "expense_reduction" }
    else none
  else none

/-- Lever 2 of `calculate_levers`: cut discretionary spending by 50%. -/
def candidate_discretionary_50 (base_input : SimulationInput)
    (scenario_type : String) (scenario_params : Params) (base_runway : ℚ) :
    Option Lever :=
  if 0 < base_input.discretionary_total then
    let modified_input :=
      { base_input with discretionary_total := base_input.discretionary_total * (1 / 2) }
    let result := FinancialSimulator.simulate modified_input scenario_type scenario_params
    let delta := result.runway_months - base_runway
    if 1 / 10 < delta then
      some { new_runway_months := roundTo2 result.runway_months
             delta_months := roundTo2 delta
             impact_category := "expense_reduction" }
    else none
  else none

/-- Lever 3 of `calculate_levers`: reduce housing costs. -/
def candidate_housing (base_input : SimulationInput)
    (scenario_type : String) (scenario_params : Params) (base_runway : ℚ) :
    Option Lever :=
  let housing_savings := min 300 (base_input.essential_total * (15 / 100))
  if 100 < housing_savings then
    let modified_input :=
      { base_input with essential_total := base_input.essential_total - housing_savings }
    let result := FinancialSimulator.simulate modified_input scenario_type scenario_params
    let delta := result.runway_months - base_runway
    if 1 / 10 < delta then
      some { new_runway_months := roundTo2 result.runway_months
             delta_months := roundTo2 delta
             impact_category := "expense_reduction" }
    else none
  else none

/-- Lever 4 of `calculate_levers`: $400/month side income, only for the
income-cut scenarios. -/
def candidate_side_income (base_input : SimulationInput)
    (scenario_type : String) (scenario_params : Params) (base_runway : ℚ) :
    Option Lever :=
  if scenario_type ∈ ["job_loss", "income_cut_20", "income_cut_40"] then
    let side_income : ℚ := 400
    let modified_input :=
      { base_input with
          monthly_income_takehome := base_input.monthly_income_takehome + side_income }
    let result := FinancialSimulator.simulate modified_input scenario_type scenario_params
    let delta := result.runway_months - base_runway
    if 1 / 10 < delta then
      some { new_runway_months := roundTo2 result.runway_months
             delta_months := roundTo2 delta
             impact_category := "income_increase" }
    else none
  else none

/-- Lever 5 of `calculate_levers`: build the emergency fund to 3 months of
expenses (the `months_of_expenses < 3` guard, whose division can raise,
stays in `calculate_levers`). -/
def candidate_emergency_fund (base_input : SimulationInput)
    (scenario_type : String) (scenario_params : Params) (base_runway : ℚ) :
    Option Lever :=
  let target_fund := (base_input.essential_total + base_input.discretionary_total) * 3
  let modified_input := { base_input with emergency_fund_balance := target_fund }
  let result := FinancialSimulator.simulate modified_input scenario_type scenario_params
  let delta := result.runway_months - base_runway
  if 1 / 10 < delta then
    some { new_runway_months := roundTo2 result.runway_months
           delta_months := roundTo2 delta
           impact_category := "emergency_fund" }
  else none

/-- The comparison used by `levers.sort(key=lambda x: x.delta_months,
reverse=True)`: `a` may come before `b` iff `b.delta_months ≤
a.delta_months`.  Python's sort is stable; `List.insertionSort` with this
relation is the same stable descending sort. -/
def leverBefore (a b : Lever) : Prop :=
  b.delta_months ≤ a.delta_months

instance : DecidableRel leverBefore := fun a b =>
  inferInstanceAs (Decidable (b.delta_months ≤ a.delta_months))

/-- `calculate_levers` from `levers.py`.  The unguarded division computing
`months_of_expenses` is the only fallible step. -/
def calculate_levers (base_input : SimulationInput) (scenario_type : String)
    (scenario_params : Params) (base_runway : ℚ) :
    Except String (List Lever) := do
  let l1 := candidate_discretionary_30 base_input scenario_type scenario_params base_runway
  let l2 := candidate_discretionary_50 base_input scenario_type scenario_params base_runway
  let l3 := candidate_housing base_input scenario_type scenario_params base_runway
  let l4 := candidate_side_income base_input scenario_type scenario_params base_runway
  let months_of_expenses ← pyDiv base_input.emergency_fund_balance
    (base_input.essential_total + base_input.discretionary_total)
  let l5 :=
    if months_of_expenses < 3 then
      candidate_emergency_fund base_input scenario_type scenario_params base_runway
    else none
  let levers := l1.toList ++ l2.toList ++ l3.toList ++ l4.toList ++ l5.toList
  return (levers.insertionSort leverBefore).take 3

/-! ## Loop lemmas -/

namespace FinancialSimulator

/-- The list of balances appended by `simulateLoop` when started at month
`month` with running balance `balance` and `fuel` months to go. -/
def balAux (inp : SimulationInput) (scenario_type : String) (params : Params) :
    ℚ → ℕ → ℕ → List ℚ
  | _, _, 0 => []
  | balance, month, fuel + 1 =>
      let balance' := step inp scenario_type params month balance
      balance' :: balAux inp scenario_type params balance' (month + 1) fuel

theorem simulateLoop_fst (inp : SimulationInput) (st : String) (p : Params) :
    ∀ (fuel month : ℕ) (balance : ℚ) (series : List ℚ) (breach : Option ℕ),
      (simulateLoop inp st p month fuel balance series breach).1
        = series ++ balAux inp st p balance month fuel := by
  intro fuel
  induction fuel with
  | zero => intro month balance series breach; simp [simulateLoop, balAux]
  | succ n ih =>
      intro month balance series breach
      simp only [simulateLoop, balAux, ih, List.append_assoc, List.singleton_append]

theorem balAux_length (inp : SimulationInput) (st : String) (p : Params) :
    ∀ (fuel month : ℕ) (balance : ℚ),
      (balAux inp st p balance month fuel).length = fuel := by
  intro fuel
  induction fuel with
  | zero => intro month balance; simp [balAux]
  | succ n ih => intro month balance; simp [balAux, ih]

/-- The balance series produced by `simulate`. -/
theorem simulate_balance_series (inp : SimulationInput) (st : String) (p : Params) :
    (simulate inp st p).balance_series
      = inp.emergency_fund_balance
          :: balAux inp st p inp.emergency_fund_balance 1 inp.horizon_months := by
  simp [simulate, simulateLoop_fst]

/-- Entry `i+1` of a series `b :: balAux … b m fuel` is obtained from entry
`i` by one loop step for month `m + i`. -/
theorem balAux_getD_succ (inp : SimulationInput) (st : String) (p : Params) :
    ∀ (fuel month : ℕ) (balance : ℚ) (i : ℕ), i < fuel →
      (balance :: balAux inp st p balance month fuel).getD (i + 1) 0
        = step inp st p (month + i)
            ((balance :: balAux inp st p balance month fuel).getD i 0) := by
  intro fuel
  induction fuel with
  | zero => intro month balance i hi; omega
  | succ n ih =>
      intro month balance i hi
      match i with
      | 0 => simp [balAux]
      | j + 1 =>
          have hj : j < n := by omega
          have := ih (month + 1) (step inp st p month balance) j hj
          simpa [balAux, Nat.add_assoc, Nat.add_comm 1 j] using this

end FinancialSimulator

/-! ## List helper lemmas -/

theorem foldl_min_le_init : ∀ (xs : List ℚ) (a : ℚ), xs.foldl min a ≤ a := by
  intro xs
  induction xs with
  | nil => intro a; simp
  | cons x xs ih =>
      intro a
      calc (x :: xs).foldl min a = xs.foldl min (min a x) := rfl
        _ ≤ min a x := ih (min a x)
        _ ≤ a := min_le_left _ _

theorem foldl_min_le_mem : ∀ (xs : List ℚ) (a y : ℚ), y ∈ xs → xs.foldl min a ≤ y := by
  intro xs
  induction xs with
  | nil => intro a y hy; simp at hy
  | cons x xs ih =>
      intro a y hy
      rcases List.mem_cons.mp hy with h | h
      · subst h
        calc (y :: xs).foldl min a = xs.foldl min (min a y) := rfl
          _ ≤ min a y := foldl_min_le_init _ _
          _ ≤ y := min_le_right _ _
      · exact ih (min a x) y h

theorem foldl_min_mem : ∀ (xs : List ℚ) (a : ℚ),
    xs.foldl min a = a ∨ xs.foldl min a ∈ xs := by
  intro xs
  induction xs with
  | nil => intro a; left; rfl
  | cons x xs ih =>
      intro a
      rcases ih (min a x) with h | h
      · rcases min_cases a x with ⟨he, _⟩ | ⟨he, _⟩
        · left; rw [List.foldl_cons, h, he]
        · refine Or.inr (List.mem_cons.mpr (Or.inl ?_))
          rw [List.foldl_cons, h, he]
      · refine Or.inr (List.mem_cons.mpr (Or.inr ?_))
        rw [List.foldl_cons]; exact h

theorem pyMin_mem (x : ℚ) (xs : List ℚ) :
    FinancialSimulator.pyMin (x :: xs) ∈ x :: xs := by
  rcases foldl_min_mem xs x with h | h
  · have : FinancialSimulator.pyMin (x :: xs) = x := h
    rw [this]; exact List.mem_cons_self x xs
  · exact List.mem_cons.mpr (Or.inr h)

theorem pyMin_le (x : ℚ) (xs : List ℚ) (y : ℚ) (hy : y ∈ x :: xs) :
    FinancialSimulator.pyMin (x :: xs) ≤ y := by
  rcases List.mem_cons.mp hy with h | h
  · subst h; exact foldl_min_le_init xs y
  · exact foldl_min_le_mem xs x y h

theorem getLast_getD_eq_getD : ∀ (l : List ℚ), l ≠ [] →
    l.getLast?.getD 0 = l.getD (l.length - 1) 0 := by
  intro l
  induction l with
  | nil => intro h; exact absurd rfl h
  | cons x xs ih =>
      intro _
      match xs, ih with
      | [], _ => rfl
      | y :: ys, ih =>
          have h := ih (by simp)
          simpa [List.getLast?_cons_cons, List.length_cons] using h

/-! ## Runway characterisation (claim C1) -/

/-- The series crosses zero between samples `i` and `i+1`: the first value
is ≥ 0 and the second is < 0. -/
def crossAt (bs : List ℚ) (i : ℕ) : Prop :=
  i + 1 < bs.length ∧ 0 ≤ bs.getD i 0 ∧ bs.getD (i + 1) 0 < 0

instance (bs : List ℚ) (i : ℕ) : Decidable (crossAt bs i) :=
  inferInstanceAs (Decidable (_ ∧ _ ∧ _))

namespace FinancialSimulator

theorem runwayScan_eq_some :
    ∀ (bs : List ℚ) (n i : ℕ), crossAt bs i → (∀ j, j < i → ¬ crossAt bs j) →
      runwayScan n bs
        = some ((n : ℚ) + (i : ℚ) + bs.getD i 0 / (bs.getD i 0 - bs.getD (i + 1) 0)) := by
  intro bs
  induction bs with
  | nil => intro n i hc _; exact absurd hc.1 (by simp)
  | cons b0 bs ih =>
      intro n i hc hmin
      match bs, i with
      | [], i => exact absurd hc.1 (by simp)
      | b1 :: rest, 0 =>
          obtain ⟨-, h0, h1⟩ := hc
          have h0' : (0 : ℚ) ≤ b0 := by simpa using h0
          have h1' : b1 < 0 := by simpa using h1
          have hd : 0 < b0 - b1 := by linarith
          simp only [runwayScan, if_pos (And.intro h0' h1'), if_pos hd]
          norm_num
      | b1 :: rest, i + 1 =>
          have hnot0 : ¬ crossAt (b0 :: b1 :: rest) 0 := hmin 0 (Nat.succ_pos i)
          have hcond : ¬ (0 ≤ b0 ∧ b1 < 0) := by
            intro hcontra
            exact hnot0 ⟨by simp only [List.length_cons]; omega,
              by simpa using hcontra.1, by simpa using hcontra.2⟩
          have hc' : crossAt (b1 :: rest) i := by
            obtain ⟨hlen, ha, hb⟩ := hc
            exact ⟨by simpa using hlen, by simpa using ha, by simpa using hb⟩
          have hmin' : ∀ j, j < i → ¬ crossAt (b1 :: rest) j := by
            intro j hj hcross
            obtain ⟨hlen, ha, hb⟩ := hcross
            exact hmin (j + 1) (by omega)
              ⟨by simpa using Nat.succ_lt_succ hlen, by simpa using ha, by simpa using hb⟩
          have := ih (n + 1) i hc' hmin'
          simp only [runwayScan, if_neg hcond, this, List.getD_cons_succ]
          congr 1
          push_cast
          ring

theorem runwayScan_eq_none :
    ∀ (bs : List ℚ) (n : ℕ), (∀ j, ¬ crossAt bs j) → runwayScan n bs = none := by
  intro bs
  induction bs with
  | nil => intro n _; rfl
  | cons b0 bs ih =>
      intro n hno
      match bs with
      | [] => rfl
      | b1 :: rest =>
          have hcond : ¬ (0 ≤ b0 ∧ b1 < 0) := by
            intro hcontra
            exact hno 0 ⟨by simp, by simpa using hcontra.1, by simpa using hcontra.2⟩
          have hno' : ∀ j, ¬ crossAt (b1 :: rest) j := by
            intro j hcross
            obtain ⟨hlen, ha, hb⟩ := hcross
            exact hno (j + 1)
              ⟨by simpa using Nat.succ_lt_succ hlen, by simpa using ha, by simpa using hb⟩
          simp only [runwayScan, if_neg hcond]
          exact ih (n + 1) hno'

end FinancialSimulator

/-- C1: the runway is computed by scanning consecutive pairs
`(balance_series[i], balance_series[i+1])` and, at the first pair with
`balance_series[i] ≥ 0` and `balance_series[i+1] < 0`, returning
`i + balance_series[i] / (balance_series[i] - balance_series[i+1])`; if no
such pair exists the runway is `horizon_months` when the final balance is
≥ 0 and `0.0` otherwise; only the first crossing counts. -/
theorem C1_runway_first_crossing :
    (∀ (horizon : ℕ) (bs : List ℚ) (i : ℕ),
        crossAt bs i → (∀ j, j < i → ¬ crossAt bs j) →
        FinancialSimulator.calculate_runway horizon bs
          = (i : ℚ) + bs.getD i 0 / (bs.getD i 0 - bs.getD (i + 1) 0))
    ∧ (∀ (horizon : ℕ) (bs : List ℚ),
        bs ≠ [] → (∀ j, ¬ crossAt bs j) →
        FinancialSimulator.calculate_runway horizon bs
          = if 0 ≤ bs.getLast?.getD 0 then (horizon : ℚ) else 0) := by
  constructor
  · intro horizon bs i hc hmin
    have h := FinancialSimulator.runwayScan_eq_some bs 0 i hc hmin
    simp only [FinancialSimulator.calculate_runway, h]
    norm_num
  · intro horizon bs _ hno
    have h := FinancialSimulator.runwayScan_eq_none bs 0 hno
    simp only [FinancialSimulator.calculate_runway, h]

/-- Witness for C1: a series crossing between samples 0 and 1 yields the
interpolated runway `1/2`; a series that never crosses and ends ≥ 0 yields
the full horizon. -/
theorem C1_runway_first_crossing_witness :
    FinancialSimulator.calculate_runway 5 [1, -1] = 1 / 2 ∧
    FinancialSimulator.calculate_runway 7 [2, 1] = 7 := by
  constructor
  · have h := C1_runway_first_crossing.1 5 [1, -1] 0 (by decide)
      (fun j hj => absurd hj (by omega))
    rw [h]; norm_num
  · have hno : ∀ j, ¬ crossAt [(2 : ℚ), 1] j := by
      intro j hcross
      obtain ⟨hlen, -, hb⟩ := hcross
      have hj : j = 0 := by simp only [List.length_cons, List.length_nil] at hlen; omega
      subst hj
      exact absurd hb (by decide)
    have h := C1_runway_first_crossing.2 7 [2, 1] (by decide) hno
    rw [h]; norm_num

/-- C2: for every valid input and scenario kind, `simulate` returns a
balance series of length `horizon_months + 1` starting at the emergency
fund balance and obeying the per-month recurrence
`balance[i+1] = balance[i] + income(i+1) - expenses(i+1) - shock(i+1)`;
`min_balance` is the minimum of the series and `ending_balance` its last
entry. -/
theorem C2_simulate_invariants (inp : SimulationInput) (st : String) (p : Params)
    (hinc : 0 ≤ inp.monthly_income_takehome)
    (hfund : 0 ≤ inp.emergency_fund_balance)
    (hess : 0 ≤ inp.essential_total)
    (hdisc : 0 ≤ inp.discretionary_total)
    (hhor : 0 < inp.horizon_months) :
    (FinancialSimulator.simulate inp st p).balance_series.length
        = inp.horizon_months + 1 ∧
    (FinancialSimulator.simulate inp st p).balance_series.getD 0 0
        = inp.emergency_fund_balance ∧
    (∀ i, i < inp.horizon_months →
      (FinancialSimulator.simulate inp st p).balance_series.getD (i + 1) 0
        = (FinancialSimulator.simulate inp st p).balance_series.getD i 0
          + FinancialSimulator.calculate_income inp (i + 1) st p
          - FinancialSimulator.calculate_expenses inp (i + 1) st p
          - FinancialSimulator.calculate_one_time_shock inp (i + 1) st p) ∧
    ((FinancialSimulator.simulate inp st p).min_balance
        ∈ (FinancialSimulator.simulate inp st p).balance_series ∧
      ∀ x ∈ (FinancialSimulator.simulate inp st p).balance_series,
        (FinancialSimulator.simulate inp st p).min_balance ≤ x) ∧
    (FinancialSimulator.simulate inp st p).ending_balance
        = (FinancialSimulator.simulate inp st p).balance_series.getD
            inp.horizon_months 0 := by
  have hser := FinancialSimulator.simulate_balance_series inp st p
  have hlen : (FinancialSimulator.simulate inp st p).balance_series.length
      = inp.horizon_months + 1 := by
    rw [hser]
    simp [FinancialSimulator.balAux_length]
  refine ⟨hlen, ?_, ?_, ?_, ?_⟩
  · rw [hser]; rfl
  · intro i hi
    rw [hser]
    have h := FinancialSimulator.balAux_getD_succ inp st p inp.horizon_months 1
      inp.emergency_fund_balance i hi
    rw [h, Nat.add_comm 1 i]
    rfl
  · have hmin : (FinancialSimulator.simulate inp st p).min_balance
        = FinancialSimulator.pyMin
            ((FinancialSimulator.simulate inp st p).balance_series) := rfl
    rw [hmin, hser]
    exact ⟨pyMin_mem _ _, fun x hx => pyMin_le _ _ x hx⟩
  · have hend : (FinancialSimulator.simulate inp st p).ending_balance
        = (FinancialSimulator.simulate inp st p).balance_series.getLast?.getD 0 := rfl
    rw [hend, getLast_getD_eq_getD _ (by rw [hser]; simp), hlen]
    simp

/-- Witness for C2 at a concrete valid input and scenario. -/
theorem C2_simulate_invariants_witness :
    ((FinancialSimulator.simulate ⟨5000, 10000, 2000, 1000, 2⟩ "baseline"
        (fun _ => none)).balance_series.length = 2 + 1) ∧
    ((FinancialSimulator.simulate ⟨5000, 10000, 2000, 1000, 2⟩ "baseline"
        (fun _ => none)).balance_series.getD 0 0 = 10000) := by
  have h := C2_simulate_invariants ⟨5000, 10000, 2000, 1000, 2⟩ "baseline"
    (fun _ => none) (by norm_num) (by norm_num) (by norm_num) (by norm_num)
    (by norm_num)
  exact ⟨h.1, h.2.1⟩

/-! ## One-time-emergency analysis (claim C3) -/

theorem getD_map_sub (δ : ℚ) :
    ∀ (l : List ℚ) (i : ℕ), i < l.length →
      (l.map (fun x => x - δ)).getD i 0 = l.getD i 0 - δ := by
  intro l
  induction l with
  | nil => intro i hi; simp at hi
  | cons x l ih =>
      intro i hi
      match i with
      | 0 => rfl
      | j + 1 => exact ih j (by simpa using hi)

namespace FinancialSimulator

theorem step_sub (inp : SimulationInput) (st : String) (p : Params)
    (m : ℕ) (b δ : ℚ) :
    step inp st p m (b - δ) = step inp st p m b - δ := by
  simp only [step]; ring

/-- Shifting the running balance shifts every later balance by the same
amount (the per-month cash flows do not depend on the balance). -/
theorem balAux_sub (inp : SimulationInput) (st : String) (p : Params) :
    ∀ (fuel m : ℕ) (b δ : ℚ),
      balAux inp st p (b - δ) m fuel
        = (balAux inp st p b m fuel).map (fun x => x - δ) := by
  intro fuel
  induction fuel with
  | zero => intro m b δ; simp [balAux]
  | succ n ih =>
      intro m b δ
      simp only [balAux, List.map_cons, step_sub]
      rw [ih]

theorem income_one_time_emergency (inp : SimulationInput) (m : ℕ) (p : Params) :
    calculate_income inp m "one_time_emergency" p = inp.monthly_income_takehome := by
  simp [calculate_income]

theorem income_baseline (inp : SimulationInput) (m : ℕ) (p : Params) :
    calculate_income inp m "baseline" p = inp.monthly_income_takehome := by
  simp [calculate_income]

theorem expenses_one_time_emergency (inp : SimulationInput) (m : ℕ) (p : Params) :
    calculate_expenses inp m "one_time_emergency" p
      = inp.essential_total + inp.discretionary_total := by
  simp [calculate_expenses]

theorem expenses_baseline (inp : SimulationInput) (m : ℕ) (p : Params) :
    calculate_expenses inp m "baseline" p
      = inp.essential_total + inp.discretionary_total := by
  simp [calculate_expenses]

theorem shock_baseline (inp : SimulationInput) (m : ℕ) (p : Params) :
    calculate_one_time_shock inp m "baseline" p = 0 := by
  simp [calculate_one_time_shock]

theorem shock_one_time_emergency (inp : SimulationInput) (m k : ℕ) (A : ℚ)
    (p : Params) (hmonth : pget p "month" 1 = (k : ℚ))
    (hamount : pget p "amount" 1500 = A) :
    calculate_one_time_shock inp m "one_time_emergency" p
      = if m = k then A else 0 := by
  simp only [calculate_one_time_shock, hmonth, hamount]
  by_cases h : m = k
  · simp [h]
  · have : ¬ ((m : ℚ) = (k : ℚ)) := by exact_mod_cast h
    simp [h, this]

theorem step_one_time_emergency (inp : SimulationInput) (p : Params)
    (k : ℕ) (A : ℚ) (hmonth : pget p "month" 1 = (k : ℚ))
    (hamount : pget p "amount" 1500 = A) (m : ℕ) (b : ℚ) :
    step inp "one_time_emergency" p m b
      = step inp "baseline" p m b - (if m = k then A else 0) := by
  simp only [step, income_one_time_emergency, income_baseline,
    expenses_one_time_emergency, expenses_baseline, shock_baseline,
    shock_one_time_emergency inp m k A p hmonth hamount]
  ring

/-- Pointwise effect of the one-time emergency on the balances appended by
the loop: every balance from the shock month on is lower by the shock
amount. -/
theorem balAux_one_time_emergency (inp : SimulationInput) (p : Params)
    (k : ℕ) (A : ℚ) (hmonth : pget p "month" 1 = (k : ℚ))
    (hamount : pget p "amount" 1500 = A) :
    ∀ (fuel m : ℕ) (b : ℚ) (i : ℕ), i < fuel →
      (balAux inp "one_time_emergency" p b m fuel).getD i 0
        = (balAux inp "baseline" p b m fuel).getD i 0
          - (if m ≤ k ∧ k ≤ m + i then A else 0) := by
  intro fuel
  induction fuel with
  | zero => intro m b i hi; omega
  | succ n ih =>
      intro m b i hi
      have hstep := step_one_time_emergency inp p k A hmonth hamount m b
      match i with
      | 0 =>
          simp only [balAux, List.getD_cons_zero, hstep]
          by_cases hmk : m = k
          · subst hmk; simp
          · have h2 : ¬ (m ≤ k ∧ k ≤ m) := by omega
            simp [h2, hmk]
      | j + 1 =>
          have hj : j < n := by omega
          simp only [balAux, List.getD_cons_succ, hstep, sub_eq_iff_eq_add]
          rw [balAux_sub, getD_map_sub _ _ j (by rw [balAux_length]; exact hj),
            ih (m + 1) (step inp "baseline" p m b) j hj]
          by_cases hmk : m = k
          · have h1 : ¬ (m + 1 ≤ k ∧ k ≤ m + 1 + j) := by omega
            have h2 : m ≤ k ∧ k ≤ m + (j + 1) := by omega
            simp [hmk, h1, h2]
          · by_cases h2 : m ≤ k ∧ k ≤ m + (j + 1)
            · have h1 : m + 1 ≤ k ∧ k ≤ m + 1 + j := by omega
              simp [hmk, h1, h2]
            · have h1 : ¬ (m + 1 ≤ k ∧ k ≤ m + 1 + j) := by omega
              simp [hmk, h1, h2]

end FinancialSimulator

/-- C3 (amended): an emergency of amount `A` in month `k` lowers every
entry of `balance_series` from index `k` on by exactly `A` relative to the
no-shock trajectory, and leaves the entries before index `k` unchanged. -/
theorem C3_one_time_emergency_shift (inp : SimulationInput) (p : Params)
    (k : ℕ) (A : ℚ) (hmonth : pget p "month" 1 = (k : ℚ))
    (hamount : pget p "amount" 1500 = A) (hk1 : 1 ≤ k)
    (hk2 : k ≤ inp.horizon_months) :
    ∀ j, j ≤ inp.horizon_months →
      (FinancialSimulator.simulate inp "one_time_emergency" p).balance_series.getD j 0
        = (FinancialSimulator.simulate inp "baseline" p).balance_series.getD j 0
          - (if k ≤ j then A else 0) := by
  intro j hj
  rw [FinancialSimulator.simulate_balance_series,
    FinancialSimulator.simulate_balance_series]
  match j with
  | 0 =>
      have h0 : ¬ (k ≤ 0) := by omega
      simp [h0]
  | i + 1 =>
      have hi : i < inp.horizon_months := by omega
      simp only [List.getD_cons_succ]
      rw [FinancialSimulator.balAux_one_time_emergency inp p k A hmonth hamount
        inp.horizon_months 1 inp.emergency_fund_balance i hi]
      by_cases hki : k ≤ i + 1
      · have h1 : 1 ≤ k ∧ k ≤ 1 + i := by omega
        simp [hki, h1]
      · have h1 : ¬ (1 ≤ k ∧ k ≤ 1 + i) := by omega
        simp [hki, h1]

/-- Counterexample to C3 as stated: with income 0, fund 100, no expenses,
horizon 2 and a $50 emergency in month 1, `balance_series[2]` also differs
from the no-shock trajectory (50 vs 100), so the shock month is not the
only affected entry. -/
theorem C3_counterexample :
    (FinancialSimulator.simulate ⟨0, 100, 0, 0, 2⟩ "one_time_emergency"
        (fun key => if key = "month" then some 1
          else if key = "amount" then some 50 else none)).balance_series.getD 2 0
      ≠ (FinancialSimulator.simulate ⟨0, 100, 0, 0, 2⟩ "baseline"
        (fun key => if key = "month" then some 1
          else if key = "amount" then some 50 else none)).balance_series.getD 2 0 := by
  have h1 : (FinancialSimulator.simulate ⟨0, 100, 0, 0, 2⟩ "one_time_emergency"
      (fun key => if key = "month" then some 1
        else if key = "amount" then some 50 else none)).balance_series
      = [100, 50, 50] := by
    simp [FinancialSimulator.simulate, FinancialSimulator.simulateLoop,
      FinancialSimulator.step, FinancialSimulator.calculate_income,
      FinancialSimulator.calculate_expenses,
      FinancialSimulator.calculate_one_time_shock, pget]
    norm_num
  have h2 : (FinancialSimulator.simulate ⟨0, 100, 0, 0, 2⟩ "baseline"
      (fun key => if key = "month" then some 1
        else if key = "amount" then some 50 else none)).balance_series
      = [100, 100, 100] := by
    simp [FinancialSimulator.simulate, FinancialSimulator.simulateLoop,
      FinancialSimulator.step, FinancialSimulator.calculate_income,
      FinancialSimulator.calculate_expenses,
      FinancialSimulator.calculate_one_time_shock, pget]
  rw [h1, h2]
  norm_num

/-- Witness for the amended C3 at the counterexample input: entry 2 of the
shocked series is exactly 50 below the no-shock series. -/
theorem C3_one_time_emergency_shift_witness :
    (FinancialSimulator.simulate ⟨0, 100, 0, 0, 2⟩ "one_time_emergency"
        (fun key => if key = "month" then some 1
          else if key = "amount" then some 50 else none)).balance_series.getD 2 0
      = (FinancialSimulator.simulate ⟨0, 100, 0, 0, 2⟩ "baseline"
        (fun key => if key = "month" then some 1
          else if key = "amount" then some 50 else none)).balance_series.getD 2 0
        - 50 := by
  have h := C3_one_time_emergency_shift ⟨0, 100, 0, 0, 2⟩
    (fun key => if key = "month" then some 1
      else if key = "amount" then some 50 else none) 1 50
    (by simp [pget]) (by simp [pget]) (by norm_num) (by norm_num) 2 (by norm_num)
  simpa using h

/-! ## Scenario registry claims (C5, C6) -/

/-- C5: resolving a kind outside the fixed catalog of six scenario kinds
always fails with the unknown-scenario error (and, the model being pure,
produces no partial state); for a kind in the catalog resolution never
fails.  This is the registry's only error condition. -/
theorem C5_unknown_scenario (st : String) (ov : Option Params) :
    (st ∉ ["job_loss", "income_cut_20", "income_cut_40", "rent_increase",
        "one_time_emergency", "inflation_spike"] →
      get_scenario_params st ov = .error ("Unknown scenario type: " ++ st)) ∧
    (st ∈ ["job_loss", "income_cut_20", "income_cut_40", "rent_increase",
        "one_time_emergency", "inflation_spike"] →
      ∃ ps, get_scenario_params st ov = .ok ps) := by
  constructor
  · intro h
    simp only [List.mem_cons, List.not_mem_nil, or_false, not_or] at h
    obtain ⟨h1, h2, h3, h4, h5, h6⟩ := h
    simp [get_scenario_params, DEFAULT_SCENARIOS, List.find?,
      Ne.symm h1, Ne.symm h2, Ne.symm h3, Ne.symm h4, Ne.symm h5, Ne.symm h6]
  · intro h
    simp only [List.mem_cons, List.not_mem_nil, or_false] at h
    rcases h with rfl | rfl | rfl | rfl | rfl | rfl <;>
      cases ov <;> exact ⟨_, rfl⟩

/-- Witness for C5: an unknown kind errors, a known kind resolves. -/
theorem C5_unknown_scenario_witness :
    get_scenario_params "mystery" none
        = .error ("Unknown scenario type: " ++ "mystery") ∧
    ∃ ps, get_scenario_params "job_loss" none = .ok ps :=
  ⟨(C5_unknown_scenario "mystery" none).1 (by decide),
   (C5_unknown_scenario "job_loss" none).2 (by decide)⟩

/-- C6: for every catalogued scenario and every overrides map, resolution
succeeds with the defaults overlaid by the overrides — override keys
(known or unknown to the schema) are returned verbatim, missing keys fall
back to the stored default — and resolving with no overrides returns
exactly the stored default parameter set, which the merge never mutates
(the merge works on a copy; in this pure model the stored
`DEFAULT_SCENARIOS` is a constant). -/
theorem C6_param_merge (sc : ScenarioDefinition) (hsc : sc ∈ DEFAULT_SCENARIOS)
    (ov : Params) :
    (∃ ps, get_scenario_params sc.type (some ov) = .ok ps ∧
      (∀ key v, ov key = some v → ps key = some v) ∧
      (∀ key, ov key = none → ps key = sc.default_params key)) ∧
    get_scenario_params sc.type none = .ok sc.default_params := by
  fin_cases hsc <;>
    exact ⟨⟨_, rfl,
      fun key v hv => by simp [dictMerge, hv],
      fun key hv => by simp [dictMerge, hv, Option.orElse]⟩, rfl⟩

/-- Witness for C6 on the job-loss scenario with an overrides map that
overrides one known key and adds one unknown key. -/
theorem C6_param_merge_witness :
    ∃ ps, get_scenario_params "job_loss"
        (some (fun key => if key = "start_month" then some 4
          else if key = "severance" then some 2500 else none)) = .ok ps ∧
      ps "start_month" = some 4 ∧ ps "severance" = some 2500 ∧
      ps "income_multiplier" = some 0 := by
  obtain ⟨⟨ps, hok, hover, hmiss⟩, -⟩ := C6_param_merge
    ⟨"job_loss", "Job Loss", "Complete loss of income starting immediately",
      fun k => if k = "start_month" then some 1
        else if k = "income_multiplier" then some 0 else none⟩
    (List.mem_cons_self _ _)
    (fun key => if key = "start_month" then some 4
      else if key = "severance" then some 2500 else none)
  refine ⟨ps, hok, ?_, ?_, ?_⟩
  · exact hover "start_month" 4 (by simp)
  · exact hover "severance" 2500 (by simp)
  · have h := hmiss "income_multiplier" (by simp)
    simpa using h

/-! ## Expense and risk claims (C7, C8) -/

/-- C7: under `inflation_spike`, the essential expenses used in month `m`
are the original essential expenses times `(1 + monthly_increase_rate)^m`,
recomputed from the original base each month, with discretionary expenses
added unchanged. -/
theorem C7_inflation_compounds_from_base (inp : SimulationInput) (m : ℕ)
    (p : Params) :
    FinancialSimulator.calculate_expenses inp m "inflation_spike" p
      = inp.essential_total
          * (1 + pget p "monthly_increase_rate" (5 / 100 / 12)) ^ m
        + inp.discretionary_total := by
  simp [FinancialSimulator.calculate_expenses]

/-- C8: the risk classification depends only on the runway — `high` below
2 months, `medium` from 2 up to (but excluding) 6, `low` from 6 — and is
independent of the monthly-expenses argument; the four threshold examples
hold for every expenses value. -/
theorem C8_risk_level (r e : ℚ) :
    (∀ e', calculate_risk_level r e = calculate_risk_level r e') ∧
    (r < 2 → calculate_risk_level r e = "high") ∧
    (2 ≤ r → r < 6 → calculate_risk_level r e = "medium") ∧
    (6 ≤ r → calculate_risk_level r e = "low") ∧
    calculate_risk_level (3 / 2) e = "high" ∧
    calculate_risk_level 2 e = "medium" ∧
    calculate_risk_level (5999 / 1000) e = "medium" ∧
    calculate_risk_level 6 e = "low" := by
  refine ⟨fun e' => rfl, ?_, ?_, ?_, ?_, ?_, ?_, ?_⟩
  · intro h; rw [calculate_risk_level, if_pos h]
  · intro h1 h2
    rw [calculate_risk_level, if_neg (not_lt.mpr h1), if_pos h2]
  · intro h
    rw [calculate_risk_level, if_neg (by linarith), if_neg (not_lt.mpr h)]
  · rw [calculate_risk_level, if_pos (by norm_num)]
  · rw [calculate_risk_level, if_neg (by norm_num), if_pos (by norm_num)]
  · rw [calculate_risk_level, if_neg (by norm_num), if_pos (by norm_num)]
  · rw [calculate_risk_level, if_neg (by norm_num), if_neg (by norm_num)]

/-- Witness for C8 at concrete runway values. -/
theorem C8_risk_level_witness :
    calculate_risk_level 1 0 = "high" ∧
    calculate_risk_level 3 0 = "medium" ∧
    calculate_risk_level 10 0 = "low" :=
  ⟨(C8_risk_level 1 0).2.1 (by norm_num),
   (C8_risk_level 3 0).2.2.1 (by norm_num) (by norm_num),
   (C8_risk_level 10 0).2.2.2.1 (by norm_num)⟩

/-! ## Lever engine claims (C4, C9, C10) -/

instance : IsTotal Lever leverBefore :=
  ⟨fun a b => le_total b.delta_months a.delta_months⟩

instance : IsTrans Lever leverBefore :=
  ⟨fun _ _ _ hab hbc => le_trans hbc hab⟩

theorem roundTo2_ge_tenth (x : ℚ) (hx : 1 / 10 < x) : 1 / 10 ≤ roundTo2 x := by
  have h10 : (10 : ℤ) ≤ round (x * 100) := by
    rw [round_eq, Int.le_floor]
    push_cast
    linarith
  have h10' : (10 : ℚ) ≤ ((round (x * 100) : ℤ) : ℚ) := by exact_mod_cast h10
  rw [roundTo2]
  linarith

theorem candidate_discretionary_30_spec (inp : SimulationInput) (st : String)
    (p : Params) (br : ℚ) (lv : Lever)
    (h : candidate_discretionary_30 inp st p br = some lv) :
    1 / 10 ≤ lv.delta_months ∧ lv.impact_category = "expense_reduction" := by
  simp only [candidate_discretionary_30] at h
  split_ifs at h with h1 h2
  · cases Option.some.inj h
    exact ⟨roundTo2_ge_tenth _ h2, rfl⟩

theorem candidate_discretionary_50_spec (inp : SimulationInput) (st : String)
    (p : Params) (br : ℚ) (lv : Lever)
    (h : candidate_discretionary_50 inp st p br = some lv) :
    1 / 10 ≤ lv.delta_months ∧ lv.impact_category = "expense_reduction" := by
  simp only [candidate_discretionary_50] at h
  split_ifs at h with h1 h2
  · cases Option.some.inj h
    exact ⟨roundTo2_ge_tenth _ h2, rfl⟩

theorem candidate_housing_spec (inp : SimulationInput) (st : String)
    (p : Params) (br : ℚ) (lv : Lever)
    (h : candidate_housing inp st p br = some lv) :
    1 / 10 ≤ lv.delta_months ∧ lv.impact_category = "expense_reduction" := by
  simp only [candidate_housing] at h
  split_ifs at h with h1 h2
  · cases Option.some.inj h
    exact ⟨roundTo2_ge_tenth _ h2, rfl⟩

theorem candidate_side_income_spec (inp : SimulationInput) (st : String)
    (p : Params) (br : ℚ) (lv : Lever)
    (h : candidate_side_income inp st p br = some lv) :
    1 / 10 ≤ lv.delta_months ∧ lv.impact_category = "income_increase" := by
  simp only [candidate_side_income] at h
  split_ifs at h with h1 h2
  · cases Option.some.inj h
    exact ⟨roundTo2_ge_tenth _ h2, rfl⟩

theorem candidate_emergency_fund_spec (inp : SimulationInput) (st : String)
    (p : Params) (br : ℚ) (lv : Lever)
    (h : candidate_emergency_fund inp st p br = some lv) :
    1 / 10 ≤ lv.delta_months ∧ lv.impact_category = "emergency_fund" := by
  simp only [candidate_emergency_fund] at h
  split_ifs at h with h1
  · cases Option.some.inj h
    exact ⟨roundTo2_ge_tenth _ h1, rfl⟩

theorem calculate_levers_zero_div (inp : SimulationInput) (st : String)
    (p : Params) (br : ℚ)
    (hED : inp.essential_total + inp.discretionary_total = 0) :
    calculate_levers inp st p br = .error "ZeroDivisionError" := by
  simp [calculate_levers, pyDiv, hED, Bind.bind, Except.bind]

theorem calculate_levers_eq_ok (inp : SimulationInput) (st : String)
    (p : Params) (br : ℚ)
    (hED : inp.essential_total + inp.discretionary_total ≠ 0) :
    calculate_levers inp st p br
      = .ok ((((candidate_discretionary_30 inp st p br).toList
            ++ (candidate_discretionary_50 inp st p br).toList
            ++ (candidate_housing inp st p br).toList
            ++ (candidate_side_income inp st p br).toList
            ++ (if inp.emergency_fund_balance
                  / (inp.essential_total + inp.discretionary_total) < 3 then
                candidate_emergency_fund inp st p br
              else none).toList).insertionSort leverBefore).take 3) := by
  simp [calculate_levers, pyDiv, hED, Bind.bind, Except.bind, pure, Except.pure]

/-- C9: `calculate_levers` divides the emergency fund by
`essential_total + discretionary_total` unconditionally, so with both
expense totals zero it raises `ZeroDivisionError` instead of returning a
list; under the precondition of a positive total it always returns one. -/
theorem C9_unguarded_expense_division (inp : SimulationInput) (st : String)
    (p : Params) (br : ℚ) :
    (inp.essential_total = 0 → inp.discretionary_total = 0 →
      calculate_levers inp st p br = .error "ZeroDivisionError") ∧
    (0 < inp.essential_total + inp.discretionary_total →
      ∃ ls, calculate_levers inp st p br = .ok ls) := by
  constructor
  · intro hE hD
    exact calculate_levers_zero_div inp st p br (by rw [hE, hD]; norm_num)
  · intro h
    exact ⟨_, calculate_levers_eq_ok inp st p br (ne_of_gt h)⟩

/-- Witness for C9: zero expense totals raise, positive ones return. -/
theorem C9_unguarded_expense_division_witness :
    calculate_levers ⟨0, 0, 0, 0, 1⟩ "baseline" (fun _ => none) 0
        = .error "ZeroDivisionError" ∧
    ∃ ls, calculate_levers ⟨0, 10000, 100, 0, 1⟩ "baseline" (fun _ => none) 0
        = .ok ls :=
  ⟨(C9_unguarded_expense_division ⟨0, 0, 0, 0, 1⟩ "baseline" (fun _ => none) 0).1
      rfl rfl,
   (C9_unguarded_expense_division ⟨0, 10000, 100, 0, 1⟩ "baseline"
      (fun _ => none) 0).2 (by norm_num)⟩

/-- C4 (amended): a successful `calculate_levers` result is sorted by
non-increasing `delta_months` (the sort is stable, so ties keep generation
order), has at most 3 entries, and every returned lever passed the
pre-rounding filter `delta > 0.1`, hence its stored (rounded)
`delta_months` is ≥ 0.1 — but it can equal 0.1 exactly. -/
theorem C4_lever_ranking (inp : SimulationInput) (st : String) (p : Params)
    (br : ℚ) (ls : List Lever) (h : calculate_levers inp st p br = .ok ls) :
    List.Pairwise leverBefore ls ∧ ls.length ≤ 3 ∧
      ∀ lv ∈ ls, 1 / 10 ≤ lv.delta_months := by
  by_cases hED : inp.essential_total + inp.discretionary_total = 0
  · rw [calculate_levers_zero_div inp st p br hED] at h
    exact absurd h (by simp)
  · rw [calculate_levers_eq_ok inp st p br hED] at h
    obtain rfl := (Except.ok.inj h).symm
    refine ⟨?_, ?_, ?_⟩
    · exact List.Pairwise.sublist (List.take_sublist _ _)
        (List.sorted_insertionSort leverBefore _)
    · rw [List.length_take]
      exact Nat.min_le_left _ _
    · intro lv hlv
      have h1 := List.take_subset _ _ hlv
      have h2 := (List.perm_insertionSort leverBefore _).subset h1
      simp only [List.mem_append, Option.mem_toList, Option.mem_def] at h2
      rcases h2 with ((((hc | hc) | hc) | hc) | hc)
      · exact (candidate_discretionary_30_spec inp st p br lv hc).1
      · exact (candidate_discretionary_50_spec inp st p br lv hc).1
      · exact (candidate_housing_spec inp st p br lv hc).1
      · exact (candidate_side_income_spec inp st p br lv hc).1
      · split_ifs at hc
        exact (candidate_emergency_fund_spec inp st p br lv hc).1

/-- Counterexample to C4 as stated: with income 0, fund 1000, essential
1000, no discretionary, horizon 12, scenario `baseline` and a caller-passed
baseline runway of 2.896, the only generated lever (build the emergency
fund) has pre-rounding delta `0.104 > 0.1`, but its stored `delta_months`
rounds to exactly `0.1`, which is not strictly greater than `0.1`. -/
theorem C4_counterexample :
    ∃ ls, calculate_levers ⟨0, 1000, 1000, 0, 12⟩ "baseline" (fun _ => none)
        (362 / 125) = .ok ls ∧ ∃ lv ∈ ls, ¬ (1 / 10 < lv.delta_months) := by
  have hc1 : candidate_discretionary_30 ⟨0, 1000, 1000, 0, 12⟩ "baseline"
      (fun _ => none) (362 / 125) = none := by
    norm_num [candidate_discretionary_30]
  have hc2 : candidate_discretionary_50 ⟨0, 1000, 1000, 0, 12⟩ "baseline"
      (fun _ => none) (362 / 125) = none := by
    norm_num [candidate_discretionary_50]
  have hc4 : candidate_side_income ⟨0, 1000, 1000, 0, 12⟩ "baseline"
      (fun _ => none) (362 / 125) = none := by
    simp [candidate_side_income]
  have hc3 : candidate_housing ⟨0, 1000, 1000, 0, 12⟩ "baseline"
      (fun _ => none) (362 / 125) = none := by
    simp [candidate_housing, min_def, FinancialSimulator.simulate,
      FinancialSimulator.simulateLoop, FinancialSimulator.step,
      FinancialSimulator.calculate_income, FinancialSimulator.calculate_expenses,
      FinancialSimulator.calculate_one_time_shock, FinancialSimulator.calculate_runway,
      FinancialSimulator.runwayScan, pget, FinancialSimulator.pyMin]
    norm_num
  have hc5 : candidate_emergency_fund ⟨0, 1000, 1000, 0, 12⟩ "baseline"
      (fun _ => none) (362 / 125)
      = some ⟨3, 1 / 10, "emergency_fund"⟩ := by
    simp [candidate_emergency_fund, FinancialSimulator.simulate,
      FinancialSimulator.simulateLoop, FinancialSimulator.step,
      FinancialSimulator.calculate_income, FinancialSimulator.calculate_expenses,
      FinancialSimulator.calculate_one_time_shock, FinancialSimulator.calculate_runway,
      FinancialSimulator.runwayScan, pget, FinancialSimulator.pyMin, roundTo2, round_eq]
    norm_num [Int.floor_eq_iff]
  have hok : calculate_levers ⟨0, 1000, 1000, 0, 12⟩ "baseline" (fun _ => none)
      (362 / 125) = .ok [⟨3, 1 / 10, "emergency_fund"⟩] := by
    rw [calculate_levers_eq_ok _ _ _ _ (by norm_num)]
    rw [hc1, hc2, hc3, hc4]
    norm_num
    rw [hc5]
    simp [List.insertionSort, List.orderedInsert]
  exact ⟨_, hok, ⟨3, 1 / 10, "emergency_fund"⟩, by simp, by norm_num⟩

/-- Witness for the amended C4 at a concrete input on which
`calculate_levers` succeeds. -/
theorem C4_lever_ranking_witness :
    ∃ ls, calculate_levers ⟨0, 10000, 100, 0, 1⟩ "baseline" (fun _ => none) 0
        = .ok ls ∧ ls.length ≤ 3 := by
  have h1 : candidate_discretionary_30 ⟨0, 10000, 100, 0, 1⟩ "baseline"
      (fun _ => none) 0 = none := by
    norm_num [candidate_discretionary_30]
  have h2 : candidate_discretionary_50 ⟨0, 10000, 100, 0, 1⟩ "baseline"
      (fun _ => none) 0 = none := by
    norm_num [candidate_discretionary_50]
  have h3 : candidate_housing ⟨0, 10000, 100, 0, 1⟩ "baseline"
      (fun _ => none) 0 = none := by
    norm_num [candidate_housing, min_def]
  have h4 : candidate_side_income ⟨0, 10000, 100, 0, 1⟩ "baseline"
      (fun _ => none) 0 = none := by
    simp [candidate_side_income]
  have h : calculate_levers ⟨0, 10000, 100, 0, 1⟩ "baseline" (fun _ => none) 0
      = .ok [] := by
    rw [calculate_levers_eq_ok _ _ _ _ (by norm_num)]
    rw [h1, h2, h3, h4]
    norm_num [List.insertionSort]
  exact ⟨[], h, (C4_lever_ranking ⟨0, 10000, 100, 0, 1⟩ "baseline"
    (fun _ => none) 0 [] h).2.1⟩

namespace FinancialSimulator

theorem step_side_income (inp : SimulationInput) (p : Params)
    (hmult : pget p "income_multiplier" 1 = 0)
    (hstart : pget p "start_month" 1 = 1) (m : ℕ) (hm : 1 ≤ m) (b : ℚ) :
    step { inp with monthly_income_takehome := inp.monthly_income_takehome + 400 }
        "job_loss" p m b
      = step inp "job_loss" p m b := by
  have hm' : (1 : ℚ) ≤ (m : ℚ) := by exact_mod_cast hm
  simp [step, calculate_income, calculate_expenses, calculate_one_time_shock,
    hmult, hstart, hm', ge_iff_le]

theorem balAux_side_income (inp : SimulationInput) (p : Params)
    (hmult : pget p "income_multiplier" 1 = 0)
    (hstart : pget p "start_month" 1 = 1) :
    ∀ (fuel m : ℕ), 1 ≤ m → ∀ b : ℚ,
      balAux { inp with monthly_income_takehome := inp.monthly_income_takehome + 400 }
          "job_loss" p b m fuel
        = balAux inp "job_loss" p b m fuel := by
  intro fuel
  induction fuel with
  | zero => intro m hm b; simp [balAux]
  | succ n ih =>
      intro m hm b
      simp only [balAux, step_side_income inp p hmult hstart m hm b]
      rw [ih (m + 1) (by omega)]

end FinancialSimulator

/-- C10: the side-income candidate adds $400 to the base income before the
scenario multiplier applies, so the extra income is scaled by
`income_multiplier` from `start_month` on; for `job_loss` with multiplier 0
and start month 1 the candidate's trajectory equals the baseline trajectory
month for month, its delta over the true baseline runway is 0, and no
income-increase lever is ever returned. -/
theorem C10_side_income_scaled (inp : SimulationInput) (p : Params)
    (hmult : pget p "income_multiplier" 1 = 0)
    (hstart : pget p "start_month" 1 = 1) :
    (∀ m : ℕ, 1 ≤ m →
      FinancialSimulator.calculate_income
          { inp with monthly_income_takehome := inp.monthly_income_takehome + 400 }
          m "job_loss" p
        = (inp.monthly_income_takehome + 400) * pget p "income_multiplier" 1) ∧
    (FinancialSimulator.simulate
        { inp with monthly_income_takehome := inp.monthly_income_takehome + 400 }
        "job_loss" p).balance_series
      = (FinancialSimulator.simulate inp "job_loss" p).balance_series ∧
    (FinancialSimulator.simulate
        { inp with monthly_income_takehome := inp.monthly_income_takehome + 400 }
        "job_loss" p).runway_months
      - (FinancialSimulator.simulate inp "job_loss" p).runway_months = 0 ∧
    ∀ ls, calculate_levers inp "job_loss" p
        (FinancialSimulator.simulate inp "job_loss" p).runway_months = .ok ls →
      ∀ lv ∈ ls, lv.impact_category ≠ "income_increase" := by
  have hseries : (FinancialSimulator.simulate
      { inp with monthly_income_takehome := inp.monthly_income_takehome + 400 }
      "job_loss" p).balance_series
      = (FinancialSimulator.simulate inp "job_loss" p).balance_series := by
    rw [FinancialSimulator.simulate_balance_series,
      FinancialSimulator.simulate_balance_series]
    exact congrArg (inp.emergency_fund_balance :: ·)
      (FinancialSimulator.balAux_side_income inp p hmult hstart
        inp.horizon_months 1 (le_refl 1) inp.emergency_fund_balance)
  have hrunway : (FinancialSimulator.simulate
      { inp with monthly_income_takehome := inp.monthly_income_takehome + 400 }
      "job_loss" p).runway_months
      = (FinancialSimulator.simulate inp "job_loss" p).runway_months := by
    show FinancialSimulator.calculate_runway inp.horizon_months
        ((FinancialSimulator.simulate
          { inp with monthly_income_takehome := inp.monthly_income_takehome + 400 }
          "job_loss" p).balance_series)
      = FinancialSimulator.calculate_runway inp.horizon_months
        ((FinancialSimulator.simulate inp "job_loss" p).balance_series)
    rw [hseries]
  refine ⟨?_, hseries, by rw [hrunway, sub_self], ?_⟩
  · intro m hm
    have hm' : (1 : ℚ) ≤ (m : ℚ) := by exact_mod_cast hm
    simp [FinancialSimulator.calculate_income, hstart, hm', ge_iff_le]
  · intro ls hls lv hmem
    by_cases hED : inp.essential_total + inp.discretionary_total = 0
    · rw [calculate_levers_zero_div _ _ _ _ hED] at hls
      exact absurd hls (by simp)
    · have h4 : candidate_side_income inp "job_loss" p
          (FinancialSimulator.simulate inp "job_loss" p).runway_months = none := by
        simp [candidate_side_income, hrunway]
      rw [calculate_levers_eq_ok _ _ _ _ hED] at hls
      obtain rfl := (Except.ok.inj hls).symm
      have h1 := List.take_subset _ _ hmem
      have h2 := (List.perm_insertionSort leverBefore _).subset h1
      simp only [List.mem_append, Option.mem_toList, Option.mem_def] at h2
      rcases h2 with ((((hc | hc) | hc) | hc) | hc)
      · rw [(candidate_discretionary_30_spec _ _ _ _ _ hc).2]; decide
      · rw [(candidate_discretionary_50_spec _ _ _ _ _ hc).2]; decide
      · rw [(candidate_housing_spec _ _ _ _ _ hc).2]; decide
      · rw [h4] at hc; exact absurd hc (by simp)
      · split_ifs at hc
        rw [(candidate_emergency_fund_spec _ _ _ _ _ hc).2]; decide


/-- Witness for C10 on the default job-loss parameters and a concrete
state. -/
theorem C10_side_income_scaled_witness :
    (FinancialSimulator.simulate ⟨5000 + 400, 10000, 2000, 1000, 12⟩ "job_loss"
        (fun k => if k = "start_month" then some 1
          else if k = "income_multiplier" then some 0 else none)).balance_series
      = (FinancialSimulator.simulate ⟨5000, 10000, 2000, 1000, 12⟩ "job_loss"
        (fun k => if k = "start_month" then some 1
          else if k = "income_multiplier" then some 0 else none)).balance_series :=
  (C10_side_income_scaled ⟨5000, 10000, 2000, 1000, 12⟩
    (fun k => if k = "start_month" then some 1
      else if k = "income_multiplier" then some 0 else none)
    (by simp [pget]) (by simp [pget])).2.1
